import Mathlib

/- Verification development for the self-correcting NL-to-SQL engine of
backend/sql_feedback_loop.py.  Strings are modelled as Lean String values,
and the Python regular-expression searches of the source are embedded as
deterministic scanners that reproduce re.search / re.sub semantics for the
concrete patterns of the source (each pattern is backtracking-free up to the
leftmost-match rule because its character classes are pairwise disjoint).
The SQLAlchemy engine and the sqlite learning store are modelled as oracle
parameters that stay fixed for the duration of one request, and MD5 hashing
is modelled as an uninterpreted function parameter. -/

/-- Python str whitespace class for the purposes of the regex `\s`
(space, tab, newline, carriage return, vertical tab, form feed). -/
def isPySpace (c : Char) : Bool :=
  c == ' ' || c == '\t' || c == '\n' || c == '\r' || c == Char.ofNat 11 || c == Char.ofNat 12

/-- Decides whether the first list is a prefix of the second. -/
def hasPre : List Char → List Char → Bool
  | [], _ => true
  | _ :: _, [] => false
  | p :: ps, q :: qs => p == q && hasPre ps qs

/-- Decides whether `pat` occurs as a contiguous sublist, mirroring
the Python substring test `pat in hay`. -/
def hasSub (pat : List Char) : List Char → Bool
  | [] => hasPre pat []
  | c :: cs => hasPre pat (c :: cs) || hasSub pat cs

/-- Python `pat in hay` on strings. -/
def strContains (hay pat : String) : Bool := hasSub pat.data hay.data

/-- Python `str.lower()` (ASCII behaviour). -/
def strLower (s : String) : String := String.mk (s.data.map Char.toLower)

/-- Python `str.upper()` (ASCII behaviour). -/
def strUpper (s : String) : String := String.mk (s.data.map Char.toUpper)

/-- Case-insensitive prefix test, used for patterns compiled with
`re.IGNORECASE`. -/
def hasPreCI (pat l : List Char) : Bool :=
  hasPre (pat.map Char.toLower) (l.map Char.toLower)

/-- A single-quote character, kept out of string literals. -/
def sqCh : String := String.mk [Char.ofNat 39]

/-- Wraps a string in single quotes, as in the SQL fragments of the source. -/
def quoted (s : String) : String := sqCh ++ s ++ sqCh

/-- Numeric value of a matched group after Python
`float(group.replace(",", ""))`: commas are discarded, digits are read in
base 10 (all groups matched by the source are integral). -/
def numVal (ds : List Char) : Nat :=
  ds.foldl (fun n c => if c.isDigit then n * 10 + (c.toNat - 48) else n) 0

/-- Python `str.strip()` restricted to the ASCII whitespace of `isPySpace`. -/
def strStrip (s : String) : String :=
  String.mk (((s.data.dropWhile isPySpace).reverse.dropWhile isPySpace).reverse)

/-- Python `str.replace(old, new)`: replaces every non-overlapping occurrence
left to right.  The source only calls it with non-empty `old`, which the
guard `1 ≤ old.length` makes explicit.  The recursion is fuelled structurally
by the input length: every step consumes at least one character, so the
fuel-exhaustion branch is unreachable when started with `l.length`. -/
def pyRepGo (old new : List Char) : Nat → List Char → List Char
  | 0, l => l
  | _ + 1, [] => []
  | fuel + 1, c :: cs =>
    if hasPre old (c :: cs) ∧ 1 ≤ old.length then
      new ++ pyRepGo old new fuel (cs.drop (old.length - 1))
    else c :: pyRepGo old new fuel cs

/-- Python `str.replace(old, new)` on character lists. -/
def pyRep (old new l : List Char) : List Char := pyRepGo old new l.length l

/-- String wrapper for `pyRep`. -/
def strReplace (s old new : String) : String :=
  String.mk (pyRep old.data new.data s.data)

/-- Runs a pattern matcher at every start position, left to right, returning
the first success: the leftmost-match rule of `re.search`. -/
def scanOpt {α : Type} (f : List Char → Option α) : List Char → Option α
  | [] => f []
  | c :: cs =>
    match f (c :: cs) with
    | some r => some r
    | none => scanOpt f cs

/-- Consumes one optional dollar sign, the `\$?` of the price patterns. -/
def skipDollar : List Char → List Char
  | '$' :: r => r
  | l => l

/-- Consumes one optional `k` suffix, the `k?` of the price patterns,
reporting whether it was present. -/
def skipK : List Char → Bool × List Char
  | 'k' :: r => (true, r)
  | l => (false, l)

/-- Greedy `([\d,]+)`: one or more digits or commas. -/
def grabNumCommas (l : List Char) : Option (List Char × List Char) :=
  let ds := l.takeWhile (fun c => c.isDigit || c == ',')
  if ds.isEmpty then none else some (ds, l.drop ds.length)

/-- Matches `between\s*\$?([\d,]+)k?\s*and\s*\$?([\d,]+)k?` anchored at the
head of the list, returning the two numeric groups and whether a `k` occurred
anywhere in the matched text (the only `k` positions are the two suffixes). -/
def matchBetweenAt (l : List Char) : Option (Nat × Nat × Bool) :=
  if hasPre "between".data l then
    let r := skipDollar ((l.drop 7).dropWhile isPySpace)
    match grabNumCommas r with
    | none => none
    | some (d1, r1) =>
      let k1 := skipK r1
      let r2 := k1.2.dropWhile isPySpace
      if hasPre "and".data r2 then
        let r3 := skipDollar ((r2.drop 3).dropWhile isPySpace)
        match grabNumCommas r3 with
        | none => none
        | some (d2, r4) =>
          let k2 := skipK r4
          some (numVal d1, numVal d2, k1.1 || k2.1)
      else none
  else none

/-- Matches `under\s*\$?([\d,]+)k?` anchored at the head of the list. -/
def matchUnderAt (l : List Char) : Option (Nat × Bool) :=
  if hasPre "under".data l then
    let r := skipDollar ((l.drop 5).dropWhile isPySpace)
    match grabNumCommas r with
    | none => none
    | some (ds, r1) => some (numVal ds, (skipK r1).1)
  else none

/-- Matches `over\s*\$?([\d,]+)k?` anchored at the head of the list. -/
def matchOverAt (l : List Char) : Option (Nat × Bool) :=
  if hasPre "over".data l then
    let r := skipDollar ((l.drop 4).dropWhile isPySpace)
    match grabNumCommas r with
    | none => none
    | some (ds, r1) => some (numVal ds, (skipK r1).1)
  else none

/-- `re.search` of the between-price pattern. -/
def scanBetween (l : List Char) : Option (Nat × Nat × Bool) := scanOpt matchBetweenAt l

/-- `re.search` of the under-price pattern. -/
def scanUnder (l : List Char) : Option (Nat × Bool) := scanOpt matchUnderAt l

/-- `re.search` of the over-price pattern. -/
def scanOver (l : List Char) : Option (Nat × Bool) := scanOpt matchOverAt l

/-- The `if 'k' in match.group(0): value *= 1000` scaling of the source. -/
def scaleK (k : Bool) (n : Nat) : Nat := if k then n * 1000 else n

/-- `ConstraintExtractor._extract_price_range`.  A price range is a pair
`(lo, hi)` where `hi = none` encodes the `float('inf')` upper bound produced
by the `over` pattern; all finite amounts produced by the source are
integral. -/
def extractPriceRange (q : String) : Option (Nat × Option Nat) :=
  match scanBetween q.data with
  | some (a, b, k) => some (scaleK k a, some (scaleK k b))
  | none =>
    match scanUnder q.data with
    | some (a, k) => some (0, some (scaleK k a))
    | none =>
      match scanOver q.data with
      | some (a, k) => some (scaleK k a, none)
      | none => none

/-- Greedy `(\d+)`: one or more digits. -/
def grabDigits (l : List Char) : Option (List Char × List Char) :=
  let ds := l.takeWhile Char.isDigit
  if ds.isEmpty then none else some (ds, l.drop ds.length)

/-- Value of a decimal group `\d+(?:\.\d+)?` as a rational. -/
def decVal (ip fp : List Char) : ℚ :=
  (numVal ip : ℚ) + (numVal fp : ℚ) / (10 : ℚ) ^ fp.length

/-- Matches `\d+(?:\.\d+)?` anchored at the head of the list; the optional
fractional group is taken exactly when a dot followed by a digit is present,
as the regex backtracking would do. -/
def grabDec (l : List Char) : Option (ℚ × List Char) :=
  match grabDigits l with
  | none => none
  | some (ip, r1) =>
    match r1 with
    | '.' :: r2 =>
      match grabDigits r2 with
      | some (fp, r3) => some (decVal ip fp, r3)
      | none => some ((numVal ip : ℚ), r1)
    | _ => some ((numVal ip : ℚ), r1)

/-- Matches `(\d+(?:\.\d+)?)\s*to\s*(\d+(?:\.\d+)?)\s*acres?` anchored at the
head of the list. -/
def matchSizeRangeAt (l : List Char) : Option (ℚ × ℚ) :=
  match grabDec l with
  | none => none
  | some (a, r1) =>
    let r2 := r1.dropWhile isPySpace
    if hasPre "to".data r2 then
      match grabDec ((r2.drop 2).dropWhile isPySpace) with
      | none => none
      | some (b, r3) =>
        if hasPre "acre".data (r3.dropWhile isPySpace) then some (a, b) else none
    else none

/-- Matches `over\s*(\d+(?:\.\d+)?)\s*acres?` anchored at the head of the
list. -/
def matchOverAcresAt (l : List Char) : Option ℚ :=
  if hasPre "over".data l then
    match grabDec ((l.drop 4).dropWhile isPySpace) with
    | none => none
    | some (a, r1) =>
      if hasPre "acre".data (r1.dropWhile isPySpace) then some a else none
  else none

/-- Matches `(\d+(?:\.\d+)?)\s*acres?` anchored at the head of the list. -/
def matchExactAcresAt (l : List Char) : Option ℚ :=
  match grabDec l with
  | none => none
  | some (a, r1) =>
    if hasPre "acre".data (r1.dropWhile isPySpace) then some a else none

/-- `ConstraintExtractor._extract_size_range`; `hi = none` encodes
`float('inf')`. -/
def extractSizeRange (q : String) : Option (ℚ × Option ℚ) :=
  match scanOpt matchSizeRangeAt q.data with
  | some (a, b) => some (a, some b)
  | none =>
    match scanOpt matchOverAcresAt q.data with
    | some a => some (a, none)
    | none =>
      match scanOpt matchExactAcresAt q.data with
      | some a =>
        if ¬ strContains q "to" ∧ ¬ strContains q "over" then some (a, some a) else none
      | none => none

/-- `ConstraintExtractor._extract_aggregation`. -/
def extractAggregation (q : String) : Option String :=
  if strContains q "how many" || strContains q "count" || strContains q "number of" then
    some "COUNT"
  else if strContains q "average" || strContains q "avg" then some "AVG"
  else if strContains q "sum" || strContains q "total" then some "SUM"
  else if strContains q "maximum" || strContains q "max" then some "MAX"
  else if strContains q "minimum" || strContains q "min" then some "MIN"
  else none

/-- `ConstraintExtractor._extract_order_by`. -/
def extractOrderBy (q : String) : Option String :=
  if strContains q "cheapest" || strContains q "lowest price" then some "asking_price ASC"
  else if strContains q "expensive" || strContains q "highest price" then
    some "asking_price DESC"
  else if strContains q "largest" || strContains q "biggest" then some "size_acres DESC"
  else if strContains q "smallest" then some "size_acres ASC"
  else none

/-- Matches `kw\s+(\d+)` anchored at the head of the list. -/
def matchKwNumAt (kw : List Char) (l : List Char) : Option Nat :=
  if hasPre kw l then
    let r := l.drop kw.length
    let ws := r.takeWhile isPySpace
    if ws.isEmpty then none
    else
      match grabDigits (r.drop ws.length) with
      | some (ds, _) => some (numVal ds)
      | none => none
  else none

/-- Matches `(\d+)\s+kw` anchored at the head of the list. -/
def matchNumKwAt (kw : List Char) (l : List Char) : Option Nat :=
  match grabDigits l with
  | none => none
  | some (ds, r) =>
    let ws := r.takeWhile isPySpace
    if ws.isEmpty then none
    else if hasPre kw (r.drop ws.length) then some (numVal ds) else none

/-- `ConstraintExtractor._extract_limit`: the four patterns are tried in the
order of the source, each with `re.search` semantics. -/
def extractLimit (q : String) : Option Nat :=
  match scanOpt (matchKwNumAt "first".data) q.data with
  | some n => some n
  | none =>
    match scanOpt (matchKwNumAt "top".data) q.data with
    | some n => some n
    | none =>
      match scanOpt (matchNumKwAt "properties".data) q.data with
      | some n => some n
      | none => scanOpt (matchKwNumAt "limit".data) q.data

/-- The extra filters dictionary of
`ConstraintExtractor._extract_additional_filters`: `available` overwrites the
`status` entry written by `vacant`. -/
structure ExtraFilters where
  status : Option String
  trafficData : Bool
  incomeData : Bool
deriving DecidableEq, Repr

/-- `ConstraintExtractor._extract_additional_filters`. -/
def extractFilters (q : String) : ExtraFilters :=
  { status :=
      if strContains q "available" then some "Available"
      else if strContains q "vacant" then some "Vacant"
      else none
    trafficData := strContains q "traffic"
    incomeData := strContains q "income" }

/-- Keys of `SchemaMapper.COUNTY_MAPPINGS`, in insertion order. -/
def countyList : List String :=
  ["dekalb", "fulton", "gwinnett", "walton", "cobb", "clayton", "henry", "douglas",
   "rockdale"]

/-- Keys of `SchemaMapper.PROPERTY_TYPE_MAPPINGS`, in insertion order. -/
def propertyTypeList : List String :=
  ["gas station", "retail", "restaurant", "vacant", "commercial"]

/-- Values of `SchemaMapper.PROPERTY_TYPE_MAPPINGS`. -/
def propertyTypeFragment (t : String) : Option String :=
  if t = "gas station" then
    some ("(property_type ILIKE " ++ quoted "%gas%" ++ " OR property_subtype ILIKE " ++
      quoted "%station%" ++ ")")
  else if t = "retail" then
    some ("(property_type ILIKE " ++ quoted "%retail%" ++ " OR property_subtype ILIKE " ++
      quoted "%retail%" ++ ")")
  else if t = "restaurant" then
    some ("(property_type ILIKE " ++ quoted "%restaurant%" ++
      " OR property_subtype ILIKE " ++ quoted "%dining%" ++ ")")
  else if t = "vacant" then
    some ("(property_type ILIKE " ++ quoted "%vacant%" ++ " OR status ILIKE " ++
      quoted "%vacant%" ++ ")")
  else if t = "commercial" then
    some ("(property_type ILIKE " ++ quoted "%commercial%" ++
      " OR property_subtype ILIKE " ++ quoted "%commercial%" ++ ")")
  else none

/-- `ConstraintExtractor._estimate_result_count`.  List truthiness of the
Python `if counties and property_types` is non-emptiness. -/
def estimateResultCount (counties propTypes : List String) (agg : Option String)
    (q : String) : Nat × Option Nat :=
  match agg with
  | some _ => if strContains q "counties" then (1, some 20) else (1, some 1)
  | none =>
    if counties ≠ [] ∧ propTypes ≠ [] then (1, some 100)
    else if counties ≠ [] ∨ propTypes ≠ [] then (5, some 500)
    else (10, some 1000)

/-- The `QueryConstraints` dataclass. -/
structure QueryConstraints where
  counties : List String
  price_range : Option (Nat × Option Nat)
  size_range : Option (ℚ × Option ℚ)
  property_types : List String
  aggregation_type : Option String
  order_by : Option String
  limit : Option Nat
  filters : ExtraFilters
  expected_min_results : Nat
  expected_max_results : Option Nat
deriving DecidableEq, Repr

/-- `ConstraintExtractor.extract_constraints`: every sub-extractor runs on the
lower-cased utterance. -/
def extractConstraints (userQuery : String) : QueryConstraints :=
  let ql := strLower userQuery
  let counties := countyList.filter (fun c => strContains ql c)
  let pts := propertyTypeList.filter (fun t => strContains ql t)
  let agg := extractAggregation ql
  let em := estimateResultCount counties pts agg ql
  { counties := counties
    price_range := extractPriceRange ql
    size_range := extractSizeRange ql
    property_types := pts
    aggregation_type := agg
    order_by := extractOrderBy ql
    limit := extractLimit ql
    filters := extractFilters ql
    expected_min_results := em.1
    expected_max_results := em.2 }

/-- The `ValidationStatus` enum. -/
inductive VStatus where
  | success
  | corrected
  | failed
  | max_iterations
deriving DecidableEq, Repr

/-- The `QueryResult` dataclass; rows are opaque tuples modelled as lists of
cell strings. -/
structure QueryResult where
  rows : List (List String)
  row_count : Nat
  columns : List String
  execution_time : Nat
  errors : List String
  warnings : List String
deriving DecidableEq, Repr

/-- The `FeedbackRecord` dataclass (timestamp modelled as an opaque-valued
string field filled by the clock, irrelevant to every property below). -/
structure FeedbackRecord where
  query_hash : String
  original_query : String
  corrected_query : String
  user_input : String
  constraints : QueryConstraints
  correction_reason : String
  timestamp : String
  iteration_count : Nat
  validation_status : VStatus
deriving DecidableEq, Repr

/-- The SQL fragment `address->>'county'` used by validator and corrector. -/
def addrCountyExpr : String := "address->>" ++ quoted "county"

/-- The SQL fragment `address::text`. -/
def addrTextExpr : String := "address::text"

/-- `QueryValidator._validate_aggregation`. -/
def validateAggregation (result : QueryResult) (cons : QueryConstraints)
    (query : String) : Bool :=
  if cons.aggregation_type = some "COUNT" then
    if ¬ strContains (strUpper query) "COUNT(" then false
    else if result.row_count = 0 then false
    else true
  else true

/-- `QueryValidator._validate_county_filter`: a mentioned county passes when
the query contains the JSON address expression (anywhere), fails when it is
filtered through `property_type ILIKE`, and passes otherwise. -/
def validateCountyFilter (query : String) (counties : List String) : Bool :=
  let ql := strLower query
  counties.all fun county =>
    if strContains ql county then
      if strContains ql addrCountyExpr || strContains ql addrTextExpr then true
      else if strContains ql ("property_type ilike " ++ quoted ("%" ++ county ++ "%")) then
        false
      else true
    else true

/-- `QueryValidator._validate_price_range`: requires `asking_price` in the
lower-cased SQL, and a `between` substring exactly when the lower bound is
positive and the upper bound finite. -/
def validatePriceRange (query : String) (pr : Nat × Option Nat) : Bool :=
  let ql := strLower query
  if ¬ strContains ql "asking_price" then false
  else
    match pr with
    | (mn, some _) => if mn > 0 then strContains ql "between" else true
    | (_, none) => true

/-- `QueryValidator.validate_results`: issues are collected in source order
(cardinality, raw execution errors, aggregation, county, price); the first
component is `len(issues) == 0`. -/
def validateResults (result : QueryResult) (cons : QueryConstraints)
    (originalQuery : String) : Bool × List String :=
  let i1 :=
    if result.row_count < cons.expected_min_results then
      ["Too few results: got " ++ toString result.row_count ++
        ", expected at least " ++ toString cons.expected_min_results]
    else []
  let i2 :=
    match cons.expected_max_results with
    | some m =>
      if m ≠ 0 ∧ result.row_count > m then
        ["Too many results: got " ++ toString result.row_count ++
          ", expected at most " ++ toString m]
      else []
    | none => []
  let i4 :=
    match cons.aggregation_type with
    | some _ =>
      if ¬ validateAggregation result cons originalQuery then
        ["Aggregation query validation failed"]
      else []
    | none => []
  let i5 :=
    if cons.counties ≠ [] ∧ ¬ validateCountyFilter originalQuery cons.counties then
      ["County filter appears incorrect in SQL"]
    else []
  let i6 :=
    match cons.price_range with
    | some pr =>
      if ¬ validatePriceRange originalQuery pr then
        ["Price range filter appears incorrect in SQL"]
      else []
    | none => []
  let issues := i1 ++ i2 ++ result.errors ++ i4 ++ i5 ++ i6
  (issues.isEmpty, issues)

/-- `SQLCorrector._fix_county_filters`: the containment test is performed on
the incoming query while the replacement is threaded through the fold, as in
the source. -/
def fixCountyFilters (query : String) (counties : List String) : String × List String :=
  counties.foldl
    (fun acc county =>
      let oldPat := "property_type ILIKE " ++ quoted ("%" ++ county ++ "%")
      let newPat := addrCountyExpr ++ " ILIKE " ++ quoted ("%" ++ county ++ "%")
      if strContains query oldPat then
        (strReplace acc.1 oldPat newPat,
         acc.2 ++ ["Fixed " ++ county ++ " county filter to use address field"])
      else acc)
    (query, [])

/-- `re.sub(r',\s*asking_price', '', s)`: removes every occurrence of a comma
followed by whitespace and `asking_price`, anywhere in the SQL; fuelled
structurally by the input length (every step consumes at least one
character). -/
def subCommaAskingGo : Nat → List Char → List Char
  | 0, l => l
  | _ + 1, [] => []
  | fuel + 1, c :: cs =>
    if c = ',' then
      let r := cs.dropWhile isPySpace
      if hasPre "asking_price".data r then subCommaAskingGo fuel (r.drop 12)
      else c :: subCommaAskingGo fuel cs
    else c :: subCommaAskingGo fuel cs

/-- `re.sub(r',\s*asking_price', '', s)` on character lists. -/
def subCommaAsking (l : List Char) : List Char := subCommaAskingGo l.length l

/-- `SQLCorrector._fix_aggregation_query`: both guards test the incoming
query, the rewrites are applied in sequence to the running corrected text. -/
def fixAggregationQuery (query : String) (cons : QueryConstraints) :
    String × List String :=
  if cons.aggregation_type = some "COUNT" then
    let s1 :=
      if ¬ strContains (strUpper query) "COUNT(" then
        if strContains query "SELECT " then
          (strReplace query "SELECT " "SELECT COUNT(*), ",
           ["Added COUNT(*) to aggregation query"])
        else (query, ([] : List String))
      else (query, ([] : List String))
    let s2 :=
      if strContains (strUpper query) "GROUP BY" ∧ strContains query "asking_price" then
        (String.mk (subCommaAsking s1.1.data),
         ["Removed asking_price from GROUP BY clause"])
      else (s1.1, ([] : List String))
    (s2.1, s1.2 ++ s2.2)
  else (query, [])

/-- `SQLCorrector._fix_low_results`: broadens narrow property-type predicates
using the schema map; here the containment test runs on the running corrected
text, as in the source. -/
def fixLowResults (query : String) (cons : QueryConstraints) : String × List String :=
  cons.property_types.foldl
    (fun acc pt =>
      match propertyTypeFragment pt with
      | some frag =>
        let oldPat := "property_type ILIKE " ++ quoted ("%" ++ pt ++ "%")
        if strContains acc.1 oldPat then
          (strReplace acc.1 oldPat frag,
           acc.2 ++ ["Broadened " ++ pt ++ " search to include subtypes"])
        else acc
      | none => acc)
    (query, [])

/-- Matches the pattern
`asking_price\s*>\s*[\d.]+\s*AND\s*asking_price\s*<\s*[\d.]+` (IGNORECASE)
anchored at the head of the list, returning the remainder. -/
def matchPriceIneqAt (l : List Char) : Option (List Char) :=
  if hasPreCI "asking_price".data l then
    let r1 := (l.drop 12).dropWhile isPySpace
    match r1 with
    | '>' :: r2 =>
      let r3 := r2.dropWhile isPySpace
      let num1 := r3.takeWhile (fun c => c.isDigit || c = '.')
      if num1.isEmpty then none
      else
        let r4 := (r3.drop num1.length).dropWhile isPySpace
        if hasPreCI "and".data r4 then
          let r5 := (r4.drop 3).dropWhile isPySpace
          if hasPreCI "asking_price".data r5 then
            let r6 := (r5.drop 12).dropWhile isPySpace
            match r6 with
            | '<' :: r7 =>
              let r8 := r7.dropWhile isPySpace
              let num2 := r8.takeWhile (fun c => c.isDigit || c = '.')
              if num2.isEmpty then none else some (r8.drop num2.length)
            | _ => none
          else none
        else none
    | _ => none
  else none

/-- Length of the inequality-pair match at the head of the list, if any. -/
def priceIneqLen (l : List Char) : Option Nat :=
  (matchPriceIneqAt l).map (fun rest => l.length - rest.length)

/-- Python `str(float)` rendering of the integral prices interpolated into
the BETWEEN clause (`f"asking_price BETWEEN {min_price} AND {max_price}"`). -/
def natFloatRepr (n : Nat) : String := toString n ++ ".0"

/-- The replacement text of `SQLCorrector._fix_price_range`. -/
def betweenClause (mn mx : Nat) : String :=
  "asking_price BETWEEN " ++ natFloatRepr mn ++ " AND " ++ natFloatRepr mx

/-- `re.sub` of the inequality-pair pattern by the BETWEEN clause, every
non-overlapping occurrence (matches are never empty, as the guard records);
fuelled structurally by the input length. -/
def subPriceIneqGo (mn mx : Nat) : Nat → List Char → List Char
  | 0, l => l
  | _ + 1, [] => []
  | fuel + 1, c :: cs =>
    match priceIneqLen (c :: cs) with
    | some n =>
      if 1 ≤ n then
        (betweenClause mn mx).data ++ subPriceIneqGo mn mx fuel ((c :: cs).drop n)
      else c :: subPriceIneqGo mn mx fuel cs
    | none => c :: subPriceIneqGo mn mx fuel cs

/-- `re.sub` of the inequality-pair pattern on character lists. -/
def subPriceIneq (mn mx : Nat) (l : List Char) : List Char :=
  subPriceIneqGo mn mx l.length l

/-- `SQLCorrector._fix_price_range`. -/
def fixPriceRange (query : String) (pr : Option (Nat × Option Nat)) :
    String × List String :=
  match pr with
  | none => (query, [])
  | some (mn, mx) =>
    if strContains (strLower query) "asking_price" ∧
        ¬ strContains (strLower query) "between" then
      match mx with
      | some m =>
        if mn > 0 then
          match scanOpt priceIneqLen query.data with
          | some _ =>
            (String.mk (subPriceIneq mn m query.data),
             ["Converted price range to BETWEEN clause"])
          | none => (query, [])
        else (query, [])
      | none => (query, [])
    else (query, [])

/-- Checks that `\s+FROM` (IGNORECASE) matches as a continuation: at least one
whitespace character, then `from` case-insensitively after the whole
whitespace run (the classes are disjoint, so greediness is immaterial). -/
def tailFromOk (l : List Char) : Bool :=
  let ws := l.takeWhile isPySpace
  ¬ ws.isEmpty && hasPreCI "from".data (l.drop ws.length)

/-- Lazy search for the group of `(.+?)\s+FROM` over `l`: tries group lengths
`g, g+1, …` (at most `fuel` candidates) and returns the shortest group whose
remainder matches `\s+FROM`. -/
def lazyGroupGo (l : List Char) : Nat → Nat → Option (List Char)
  | _, 0 => none
  | g, fuel + 1 =>
    if 1 ≤ g ∧ tailFromOk (l.drop g) then some (l.take g)
    else lazyGroupGo l (g + 1) fuel

/-- Backtracking over the greedy `\s+` after `SELECT`: tries whitespace runs
of length `w, w-1, …, 1` and, for each, a lazy group search on the rest. -/
def selectWsGo (rest : List Char) : Nat → Option (List Char)
  | 0 => none
  | w + 1 =>
    match lazyGroupGo (rest.drop (w + 1)) 1 (rest.drop (w + 1)).length with
    | some g => some g
    | none => selectWsGo rest w

/-- Matches `SELECT\s+(.+?)\s+FROM` (IGNORECASE, DOTALL) anchored at the head
of the list, returning group 1. -/
def matchSelectFromAt (l : List Char) : Option (List Char) :=
  if hasPreCI "select".data l then
    let rest := l.drop 6
    selectWsGo rest (rest.takeWhile isPySpace).length
  else none

/-- Aggregation keywords guarding `SQLCorrector._ensure_essential_columns`. -/
def aggKeywords : List String :=
  ["GROUP BY", "COUNT(", "SUM(", "AVG(", "MAX(", "MIN("]

/-- The essential display columns of the source. -/
def essentialColumns : List String := ["listing_url", "address", "zoning"]

/-- `SQLCorrector._ensure_essential_columns`. -/
def ensureEssentialColumns (query : String) : String × List String :=
  if aggKeywords.any (fun k => strContains (strUpper query) k) then (query, [])
  else
    match scanOpt matchSelectFromAt query.data with
    | none => (query, [])
    | some grp =>
      let currentColumns := strStrip (String.mk grp)
      let toAdd := essentialColumns.filter
        (fun col => ¬ strContains (strLower currentColumns) col)
      if toAdd.isEmpty then (query, [])
      else
        let newColumns := currentColumns ++ ", " ++ String.intercalate ", " toAdd
        (strReplace query (String.mk grp) newColumns,
         ["Added essential display columns: " ++ String.intercalate ", " toAdd])

/-- The inner county loop of `SQLCorrector._apply_learned_patterns`: the first
county whose narrow predicate occurs is replaced, then the loop breaks. -/
def applyCountyOnce : String × List String → List String → String × List String
  | acc, [] => acc
  | acc, county :: rest =>
    let oldPat := "property_type ILIKE " ++ quoted ("%" ++ county ++ "%")
    let newPat := addrCountyExpr ++ " ILIKE " ++ quoted ("%" ++ county ++ "%")
    if strContains acc.1 oldPat then
      (strReplace acc.1 oldPat newPat,
       acc.2 ++ ["Applied learned county correction pattern"])
    else applyCountyOnce acc rest

/-- `SQLCorrector._apply_learned_patterns` over the top two similar records. -/
def applyLearnedPatterns (query : String) (similar : List FeedbackRecord)
    (cons : QueryConstraints) : String × List String :=
  (similar.take 2).foldl
    (fun acc record =>
      if record.correction_reason ≠ "" ∧
          strContains (strLower record.correction_reason) "county filter" then
        if cons.counties ≠ [] then applyCountyOnce acc cons.counties else acc
      else acc)
    (query, [])

/-- `SQLCorrector.generate_correction`: stages in fixed source order; the
similar records delivered by the learning store are an explicit argument. -/
def generateCorrection (originalQuery : String) (cons : QueryConstraints)
    (issues : List String) (similar : List FeedbackRecord) : String × String :=
  let r0 := (originalQuery, ([] : List String))
  let r1 :=
    if issues.any (fun i => strContains i "County filter appears incorrect") then
      let f := fixCountyFilters r0.1 cons.counties
      (f.1, r0.2 ++ f.2)
    else r0
  let r2 :=
    if issues.any (fun i => strContains i "Aggregation query validation failed") then
      let f := fixAggregationQuery r1.1 cons
      (f.1, r1.2 ++ f.2)
    else r1
  let r3 :=
    if issues.any (fun i => strContains i "Too few results") then
      let f := fixLowResults r2.1 cons
      (f.1, r2.2 ++ f.2)
    else r2
  let r4 :=
    if issues.any (fun i => strContains i "Price range filter appears incorrect") then
      let f := fixPriceRange r3.1 cons.price_range
      (f.1, r3.2 ++ f.2)
    else r3
  let r5 :=
    let f := ensureEssentialColumns r4.1
    (f.1, r4.2 ++ f.2)
  let r6 :=
    if similar ≠ [] then
      let f := applyLearnedPatterns r5.1 similar cons
      (f.1, r5.2 ++ f.2)
    else r5
  let reason :=
    if r6.2.isEmpty then "No specific corrections applied"
    else String.intercalate "; " r6.2
  (r6.1, reason)

/-- Outcome of one round-trip to the backing store: either rows with column
names and elapsed time, or an `SQLAlchemyError` message with elapsed time. -/
inductive ExecOut where
  | ok (rows : List (List String)) (cols : List String) (time : Nat)
  | err (msg : String) (time : Nat)

/-- `SQLFeedbackLoop._execute_query` over a database oracle: on success
`row_count` is `len(rows)` and `errors` is empty; on failure the result is
empty with the error message appended to `errors`; no exception escapes. -/
def execQuery (ex : String → ExecOut) (query : String) : QueryResult :=
  match ex query with
  | .ok rows cols t =>
    { rows := rows, row_count := rows.length, columns := cols, execution_time := t,
      errors := [], warnings := [] }
  | .err msg t =>
    { rows := [], row_count := 0, columns := [], execution_time := t,
      errors := [msg], warnings := [] }

/-- One entry of the correction history. -/
structure HistEntry where
  iteration : Nat
  issues : List String
  correction_reason : String
  original_query : String
  corrected_query : String
deriving DecidableEq, Repr

/-- Loop-local state of `SQLFeedbackLoop.process_query`. -/
structure LoopState where
  current : String
  iter : Nat
  status : VStatus
  history : List HistEntry
deriving DecidableEq, Repr

/-- The while-loop of `SQLFeedbackLoop.process_query`, fuelled by the number
of remaining iterations (`max_iterations - iteration_count`): each pass first
increments the counter, executes, validates, and either stops (valid result,
or a correction round that returned the query unchanged, which sets FAILED)
or records the correction and continues. -/
def loopGo (ex : String → ExecOut) (similar : List FeedbackRecord)
    (cons : QueryConstraints) : Nat → LoopState → LoopState
  | 0, st => st
  | fuel + 1, st =>
    let st1 : LoopState := { st with iter := st.iter + 1 }
    let result := execQuery ex st1.current
    let v := validateResults result cons st1.current
    if v.1 then st1
    else
      let c := generateCorrection st1.current cons v.2 similar
      if c.1 = st1.current then { st1 with status := VStatus.failed }
      else
        loopGo ex similar cons fuel
          { current := c.1, iter := st1.iter, status := VStatus.corrected,
            history := st1.history ++
              [{ iteration := st1.iter, issues := v.2, correction_reason := c.2,
                 original_query := st1.current, corrected_query := c.1 }] }

/-- `SQLFeedbackLoop._store_learning_record`: builds the `FeedbackRecord`
handed to `LearningStore.store_feedback`; the query hash is the hex digest of
MD5 over `f"{user_input}:{original_query}"`, with MD5 as an uninterpreted
parameter. -/
def mkLearningRecord (md5hex : String → String) (userInput originalQuery finalQuery :
    String) (cons : QueryConstraints) (history : List HistEntry)
    (iterCount : Nat) (status : VStatus) : FeedbackRecord :=
  { query_hash := md5hex (userInput ++ ":" ++ originalQuery)
    original_query := originalQuery
    corrected_query := finalQuery
    user_input := userInput
    constraints := cons
    correction_reason :=
      if history.isEmpty then ""
      else String.intercalate "; " (history.map (fun h => h.correction_reason))
    timestamp := ""
    iteration_count := iterCount
    validation_status := status }

/-- `SQLFeedbackLoop._generate_explanation`. -/
def generateExplanation (history : List HistEntry) (status : VStatus) : String :=
  if status = VStatus.success then "Query executed successfully without corrections."
  else if history.isEmpty then
    "Query failed validation but no corrections could be applied."
  else
    let expl := history.map
      (fun h => "Iteration " ++ toString h.iteration ++ ": " ++ h.correction_reason)
    let statusMsg :=
      match status with
      | VStatus.corrected => "Query was successfully corrected."
      | VStatus.failed => "Query corrections failed."
      | VStatus.max_iterations => "Maximum correction attempts reached."
      | VStatus.success => "Unknown status"
    statusMsg ++ " Corrections applied: " ++ String.intercalate "; " expl

/-- The response envelope of `SQLFeedbackLoop.process_query`, extended with
the `FeedbackRecord` passed to the learning store. -/
structure Envelope where
  final_query : String
  result : QueryResult
  validation_status : VStatus
  iteration_count : Nat
  correction_history : List HistEntry
  constraints : QueryConstraints
  explanation : String
  stored_record : FeedbackRecord
deriving DecidableEq, Repr

/-- `SQLFeedbackLoop.process_query`: extracts constraints, runs the loop,
overwrites the status with MAX_ITERATIONS whenever the iteration counter
reached the bound, re-executes the final query, stores the learning record
and assembles the envelope. -/
def processQuery (ex : String → ExecOut) (similar : List FeedbackRecord)
    (md5hex : String → String) (maxIterations : Nat)
    (userInput gpt4Query : String) : Envelope :=
  let cons := extractConstraints userInput
  let st := loopGo ex similar cons maxIterations
    { current := gpt4Query, iter := 0, status := VStatus.success, history := [] }
  let status := if st.iter ≥ maxIterations then VStatus.max_iterations else st.status
  { final_query := st.current
    result := execQuery ex st.current
    validation_status := status
    iteration_count := st.iter
    correction_history := st.history
    constraints := cons
    explanation := generateExplanation st.history status
    stored_record :=
      mkLearningRecord md5hex userInput gpt4Query st.current cons st.history st.iter
        status }

/-- Everything before the first occurrence of `pat`. -/
def beforeSub (pat : List Char) : List Char → List Char
  | [] => []
  | c :: cs => if hasPre pat (c :: cs) then [] else c :: beforeSub pat cs

/-- The part of a SQL string strictly before its `GROUP BY` clause. -/
def beforeGroupBy (s : String) : String := String.mk (beforeSub "GROUP BY".data s.data)

/-- Database oracle answering every statement with fifteen rows. -/
def dbOk15 : String → ExecOut := fun _ => ExecOut.ok (List.replicate 15 []) [] 0

/-- Database oracle answering every statement with ten rows. -/
def dbOk10 : String → ExecOut := fun _ => ExecOut.ok (List.replicate 10 []) [] 0

/-- Database oracle failing every statement. -/
def dbErr : String → ExecOut := fun _ => ExecOut.err "boom" 7

/-- Placeholder hash function for concrete runs. -/
def md5id : String → String := fun s => s

/-- Utterance of the concrete C1 run. -/
def utterC1 : String := "properties under $500k"

/-- Candidate SQL of the concrete C1 run: filters `asking_price` with `<=`,
no BETWEEN anywhere. -/
def sqlC1 : String :=
  "select id, listing_url, address, zoning from properties where asking_price <= 500000"

/-- Utterance of the concrete C1 witness run. -/
def utterC1w : String := "retail between $200k and $800k"

/-- Candidate SQL of the concrete C1 witness run. -/
def sqlC1w : String :=
  "select listing_url, address, zoning from properties where asking_price between 200000 and 800000"

/-- Utterance of the concrete C4 run. -/
def utterC4 : String := "properties in walton"

/-- Candidate SQL of the concrete C4 run: mentions the county through the
`name` column, not through the JSON address field. -/
def sqlC4 : String :=
  "select name, listing_url, address, zoning from properties where name ilike " ++
    quoted "%walton%"

/-- Utterance of the concrete C4 witness run. -/
def utterC4w : String := "retail in walton"

/-- Candidate SQL of the concrete C4 witness run. -/
def sqlC4w : String :=
  "select listing_url, address, zoning from properties where address->>" ++
    quoted "county" ++ " ILIKE " ++ quoted "%walton%" ++ " and property_type ILIKE " ++
    quoted "%retail%"

/-- Initial loop state of the concrete C3 witness run. -/
def stC3 : LoopState :=
  { current := "select 1", iter := 0, status := VStatus.success, history := [] }

/-- SQL of the concrete C9 run: a COUNT aggregation whose projection and
GROUP BY both contain `asking_price`. -/
def sqlC9 : String :=
  "SELECT COUNT(*), name, asking_price FROM t GROUP BY name, asking_price"

/-- Constraints of the concrete C9 run, as the extractor produces them. -/
def consC9 : QueryConstraints := extractConstraints "how many properties are there"

/-- C5: an utterance that names a county and a property type and matches no
aggregation keyword gets the expected cardinality band `(1, 100)`. -/
theorem c5_expected_band (u : String)
    (h1 : (extractConstraints u).counties ≠ [])
    (h2 : (extractConstraints u).property_types ≠ [])
    (h3 : (extractConstraints u).aggregation_type = none) :
    (extractConstraints u).expected_min_results = 1 ∧
    (extractConstraints u).expected_max_results = some 100 := by
  simp only [extractConstraints] at h1 h2 h3 ⊢
  rw [estimateResultCount.eq_def, h3]
  simp [h1, h2]

/-- Witness for C5 at the utterance `gas stations in walton`. -/
theorem c5_witness :
    (extractConstraints "gas stations in walton").counties ≠ [] ∧
    (extractConstraints "gas stations in walton").property_types ≠ [] ∧
    (extractConstraints "gas stations in walton").aggregation_type = none ∧
    (extractConstraints "gas stations in walton").expected_min_results = 1 ∧
    (extractConstraints "gas stations in walton").expected_max_results = some 100 :=
  ⟨by decide, by decide, by decide,
   (c5_expected_band "gas stations in walton" (by decide) (by decide) (by decide)).1,
   (c5_expected_band "gas stations in walton" (by decide) (by decide) (by decide)).2⟩

/-- C6 fails as stated: `between $800 and $200` extracts the pair `(800, 200)`
exactly as written, with the lower component greater than the upper one, so
no `A ≤ B` normalization takes place. -/
theorem c6_counterexample :
    extractPriceRange "between $800 and $200" = some (800, some 200) ∧
    ¬ (800 : Nat) ≤ 200 := by decide

/-- C6 amended: an utterance matching `between $A and $B` extracts exactly
`(A, B)` in written order (uniformly scaled by 1000 when a `k` suffix occurs
in the match), with no reordering of the bounds. -/
theorem c6_between_order (q : String) (a b : Nat) (k : Bool)
    (h : scanBetween q.data = some (a, b, k)) :
    extractPriceRange q = some (scaleK k a, some (scaleK k b)) := by
  unfold extractPriceRange
  rw [h]

/-- Witness for the amended C6 at `between $800 and $200`. -/
theorem c6_witness :
    scanBetween "between $800 and $200".data = some (800, 200, false) ∧
    extractPriceRange "between $800 and $200" =
      some (scaleK false 800, some (scaleK false 200)) :=
  ⟨by decide, c6_between_order "between $800 and $200" 800 200 false (by decide)⟩

/-- C7 fails as stated: the extraction regexes only recognize the `k` suffix;
an `m` suffix is ignored, so `under $2m` yields `(0, 2)`, not `(0, 2000000)`. -/
theorem c7_counterexample :
    extractPriceRange "under $2m" = some (0, some 2) ∧
    extractPriceRange "under $2m" ≠ some (0, some 2000000) := by decide

/-- C7 amended: only the suffix `k` is recognized, scaling by 1000 (in a
`between` match, a `k` on either amount scales both); the suffix `m` is not
part of any pattern and the amount is taken at face value. -/
theorem c7_suffix_scaling (q : String) :
    (∀ a b, scanBetween q.data = some (a, b, true) →
      extractPriceRange q = some (a * 1000, some (b * 1000))) ∧
    (∀ a, scanBetween q.data = none → scanUnder q.data = some (a, true) →
      extractPriceRange q = some (0, some (a * 1000))) ∧
    (∀ a, scanBetween q.data = none → scanUnder q.data = none →
      scanOver q.data = some (a, true) →
      extractPriceRange q = some (a * 1000, none)) := by
  refine ⟨fun a b h => ?_, fun a h1 h2 => ?_, fun a h1 h2 h3 => ?_⟩
  · unfold extractPriceRange
    rw [h]
    simp [scaleK]
  · unfold extractPriceRange
    rw [h1, h2]
    simp [scaleK]
  · unfold extractPriceRange
    rw [h1, h2, h3]
    simp [scaleK]

/-- Witness for the amended C7 at `under $2k`. -/
theorem c7_witness :
    scanBetween "under $2k".data = none ∧
    scanUnder "under $2k".data = some (2, true) ∧
    extractPriceRange "under $2k" = some (0, some (2 * 1000)) :=
  ⟨by decide, by decide,
   (c7_suffix_scaling "under $2k").2.1 2 (by decide) (by decide)⟩

/-- C8: the `FeedbackRecord` handed to the learning store carries
`query_hash = md5_hex(user_utterance ++ ":" ++ original_sql)`, where the
original SQL is the candidate passed to `process_query`, regardless of any
corrections the loop applied. -/
theorem c8_query_hash (ex : String → ExecOut) (similar : List FeedbackRecord)
    (md5hex : String → String) (maxIterations : Nat) (userInput gpt4Query : String) :
    (processQuery ex similar md5hex maxIterations userInput
        gpt4Query).stored_record.query_hash =
      md5hex (userInput ++ ":" ++ gpt4Query) := rfl

/-- C9 fails as stated: on a COUNT query whose projection and GROUP BY both
contain `asking_price`, the repair deletes every `, asking_price` occurrence
in the whole statement, so the part of the SQL before the GROUP BY clause is
changed as well. -/
theorem c9_counterexample :
    (fixAggregationQuery sqlC9 consC9).1 =
      "SELECT COUNT(*), name FROM t GROUP BY name" ∧
    beforeGroupBy (fixAggregationQuery sqlC9 consC9).1 ≠ beforeGroupBy sqlC9 := by
  decide

/-- C9 amended: when the aggregation is COUNT, `COUNT(` is already present,
a GROUP BY exists and `asking_price` occurs anywhere, the repair rewrites the
whole SQL with the global substitution that removes every comma-prefixed
`asking_price`, projection included (`subCommaAsking`); an `asking_price`
standing first in the GROUP BY is not removed. -/
theorem c9_group_by_removal (q : String) (cons : QueryConstraints)
    (hagg : cons.aggregation_type = some "COUNT")
    (hcnt : strContains (strUpper q) "COUNT(" = true)
    (hgrp : strContains (strUpper q) "GROUP BY" = true)
    (hask : strContains q "asking_price" = true) :
    (fixAggregationQuery q cons).1 = String.mk (subCommaAsking q.data) := by
  unfold fixAggregationQuery
  rw [hagg]
  simp [hcnt, hgrp, hask]

/-- Witness for the amended C9 at the concrete COUNT query. -/
theorem c9_witness :
    consC9.aggregation_type = some "COUNT" ∧
    strContains (strUpper sqlC9) "COUNT(" = true ∧
    strContains (strUpper sqlC9) "GROUP BY" = true ∧
    strContains sqlC9 "asking_price" = true ∧
    (fixAggregationQuery sqlC9 consC9).1 = String.mk (subCommaAsking sqlC9.data) :=
  ⟨by decide, by decide, by decide, by decide,
   c9_group_by_removal sqlC9 consC9 (by decide) (by decide) (by decide) (by decide)⟩

/-- C10: each executor result satisfies `row_count = len(rows)`, and a failed
execution yields an empty result whose `errors` list carries exactly the
error message, without raising. -/
theorem c10_executor_invariants (ex : String → ExecOut) (q : String) :
    (execQuery ex q).row_count = (execQuery ex q).rows.length ∧
    ∀ msg t, ex q = ExecOut.err msg t →
      (execQuery ex q).rows = [] ∧ (execQuery ex q).row_count = 0 ∧
      (execQuery ex q).errors = [msg] := by
  constructor
  · cases h : ex q <;> simp [execQuery, h]
  · intro msg t h
    simp [execQuery, h]

/-- Witness for C10 on an always-failing database oracle. -/
theorem c10_witness :
    (execQuery dbErr "select 1").rows = [] ∧
    (execQuery dbErr "select 1").row_count = 0 ∧
    (execQuery dbErr "select 1").errors = ["boom"] :=
  (c10_executor_invariants dbErr "select 1").2 "boom" 7 rfl

/-- The successor state entering the next loop round after a correction. -/
def nextState (ex : String → ExecOut) (similar : List FeedbackRecord)
    (cons : QueryConstraints) (st : LoopState) : LoopState :=
  let v := validateResults (execQuery ex st.current) cons st.current
  let c := generateCorrection st.current cons v.2 similar
  { current := c.1, iter := st.iter + 1, status := VStatus.corrected,
    history := st.history ++
      [{ iteration := st.iter + 1, issues := v.2, correction_reason := c.2,
         original_query := st.current, corrected_query := c.1 }] }

/-- Unfolding of one loop round, stated through `nextState`. -/
theorem loopGo_succ_eq (ex : String → ExecOut) (similar : List FeedbackRecord)
    (cons : QueryConstraints) (n : Nat) (st : LoopState) :
    loopGo ex similar cons (n + 1) st =
      if (validateResults (execQuery ex st.current) cons st.current).1 then
        { st with iter := st.iter + 1 }
      else if (generateCorrection st.current cons
          (validateResults (execQuery ex st.current) cons st.current).2 similar).1 =
          st.current then
        { st with iter := st.iter + 1, status := VStatus.failed }
      else loopGo ex similar cons n (nextState ex similar cons st) := rfl

/-- The loop never resets the status to SUCCESS. -/
theorem loopGo_status_ne_success (ex : String → ExecOut) (similar : List FeedbackRecord)
    (cons : QueryConstraints) :
    ∀ (fuel : Nat) (st : LoopState), st.status ≠ VStatus.success →
      (loopGo ex similar cons fuel st).status ≠ VStatus.success := by
  intro fuel
  induction fuel with
  | zero => intro st h; exact h
  | succ n ih =>
    intro st h
    rw [loopGo_succ_eq]
    by_cases hv : (validateResults (execQuery ex st.current) cons st.current).1 = true
    · rw [if_pos hv]; exact h
    · rw [if_neg hv]
      by_cases hc : (generateCorrection st.current cons
          (validateResults (execQuery ex st.current) cons st.current).2 similar).1 =
          st.current
      · rw [if_pos hc]; intro hx; cases hx
      · rw [if_neg hc]
        exact ih (nextState ex similar cons st) (by intro hx; cases hx)

/-- Either the loop consumed its whole fuel, or it stopped early: with status
FAILED, or on a state whose current query validates. -/
theorem loopGo_exit_shape (ex : String → ExecOut) (similar : List FeedbackRecord)
    (cons : QueryConstraints) :
    ∀ (fuel : Nat) (st : LoopState),
      (loopGo ex similar cons fuel st).iter = st.iter + fuel ∨
      (loopGo ex similar cons fuel st).status = VStatus.failed ∨
      (validateResults (execQuery ex (loopGo ex similar cons fuel st).current) cons
        (loopGo ex similar cons fuel st).current).1 = true := by
  intro fuel
  induction fuel with
  | zero => intro st; left; rfl
  | succ n ih =>
    intro st
    rw [loopGo_succ_eq]
    by_cases hv : (validateResults (execQuery ex st.current) cons st.current).1 = true
    · rw [if_pos hv]
      right; right
      exact hv
    · rw [if_neg hv]
      by_cases hc : (generateCorrection st.current cons
          (validateResults (execQuery ex st.current) cons st.current).2 similar).1 =
          st.current
      · rw [if_pos hc]; right; left; rfl
      · rw [if_neg hc]
        rcases ih (nextState ex similar cons st) with h1 | h1 | h1
        · left
          rw [h1]
          show st.iter + 1 + n = st.iter + (n + 1)
          omega
        · right; left; exact h1
        · right; right; exact h1

/-- A loop run that ends with status SUCCESS started with status SUCCESS and
either never entered the body (no fuel) or stopped during its very first
round, leaving the history untouched. -/
theorem loopGo_success_shape (ex : String → ExecOut) (similar : List FeedbackRecord)
    (cons : QueryConstraints) :
    ∀ (fuel : Nat) (st : LoopState),
      (loopGo ex similar cons fuel st).status = VStatus.success →
      (loopGo ex similar cons fuel st = st ∧ fuel = 0) ∨
      ((loopGo ex similar cons fuel st).iter = st.iter + 1 ∧
       (loopGo ex similar cons fuel st).history = st.history) := by
  intro fuel
  induction fuel with
  | zero => intro st _; exact Or.inl ⟨rfl, rfl⟩
  | succ n ih =>
    intro st h
    rw [loopGo_succ_eq] at h ⊢
    by_cases hv : (validateResults (execQuery ex st.current) cons st.current).1 = true
    · rw [if_pos hv]
      exact Or.inr ⟨rfl, rfl⟩
    · rw [if_neg hv] at h ⊢
      by_cases hc : (generateCorrection st.current cons
          (validateResults (execQuery ex st.current) cons st.current).2 similar).1 =
          st.current
      · rw [if_pos hc] at h
        cases h
      · rw [if_neg hc] at h
        exact absurd h
          (loopGo_status_ne_success ex similar cons n (nextState ex similar cons st)
            (by intro hx; cases hx))

/-- A validation pass with an extracted price range whose lower bound is
positive and upper bound finite forces `between` and `asking_price` into the
lower-cased SQL. -/
theorem valid_price_shape (result : QueryResult) (cons : QueryConstraints) (q : String)
    (h : (validateResults result cons q).1 = true)
    (mn mx : Nat) (hpr : cons.price_range = some (mn, some mx)) (hmn : 0 < mn) :
    strContains (strLower q) "between" = true ∧
    strContains (strLower q) "asking_price" = true := by
  have hvp : validatePriceRange q (mn, some mx) = true := by
    simp only [validateResults] at h
    rw [hpr] at h
    by_contra hq
    rw [Bool.not_eq_true] at hq
    simp [hq, List.isEmpty_iff, List.append_eq_nil] at h
  unfold validatePriceRange at hvp
  by_cases hap : strContains (strLower q) "asking_price" = true
  · refine ⟨?_, hap⟩
    simp only [hap] at hvp
    simpa [hmn] using hvp
  · rw [Bool.not_eq_true] at hap
    simp [hap] at hvp

/-- A validation pass with a non-empty county set forces, for each extracted
county, the disjunction actually checked by `_validate_county_filter`. -/
theorem valid_county_shape (result : QueryResult) (cons : QueryConstraints) (q : String)
    (h : (validateResults result cons q).1 = true)
    (c : String) (hc : c ∈ cons.counties) :
    strContains (strLower q) c = false ∨
    strContains (strLower q) addrCountyExpr = true ∨
    strContains (strLower q) addrTextExpr = true ∨
    strContains (strLower q)
      ("property_type ilike " ++ quoted ("%" ++ c ++ "%")) = false := by
  have hne : cons.counties ≠ [] := by
    intro he
    rw [he] at hc
    cases hc
  have hvc : validateCountyFilter q cons.counties = true := by
    simp only [validateResults] at h
    by_contra hq
    rw [Bool.not_eq_true] at hq
    simp [hq, hne, List.isEmpty_iff, List.append_eq_nil] at h
  unfold validateCountyFilter at hvc
  rw [List.all_eq_true] at hvc
  have hp := hvc c hc
  by_cases h1 : strContains (strLower q) c = true
  · by_cases h2 : (strContains (strLower q) addrCountyExpr ||
        strContains (strLower q) addrTextExpr) = true
    · rcases Bool.or_eq_true_iff.mp h2 with h3 | h3
      · exact Or.inr (Or.inl h3)
      · exact Or.inr (Or.inr (Or.inl h3))
    · rw [Bool.not_eq_true] at h2
      right; right; right
      by_cases h3 : strContains (strLower q)
          ("property_type ilike " ++ quoted ("%" ++ c ++ "%")) = true
      · exfalso
        rw [Bool.or_eq_false_iff] at h2
        simp [h1, h2.1, h2.2, h3] at hp
      · simpa using h3
  · left
    simpa using h1

/-- When a processed request reports SUCCESS or CORRECTED, the loop stopped
because the final query's execution validated against the extracted
constraints. -/
theorem processQuery_final_valid (ex : String → ExecOut)
    (similar : List FeedbackRecord) (md5hex : String → String)
    (maxIterations : Nat) (u sql : String)
    (h : (processQuery ex similar md5hex maxIterations u sql).validation_status =
        VStatus.success ∨
      (processQuery ex similar md5hex maxIterations u sql).validation_status =
        VStatus.corrected) :
    (validateResults
      (execQuery ex (processQuery ex similar md5hex maxIterations u sql).final_query)
      (extractConstraints u)
      (processQuery ex similar md5hex maxIterations u sql).final_query).1 = true := by
  simp only [processQuery] at h ⊢
  set L := loopGo ex similar (extractConstraints u) maxIterations
    { current := sql, iter := 0, status := VStatus.success, history := [] } with hL
  by_cases hge : L.iter ≥ maxIterations
  · rw [if_pos hge] at h
    rcases h with h | h <;> exact absurd h (by decide)
  · rw [if_neg hge] at h
    rcases loopGo_exit_shape ex similar (extractConstraints u) maxIterations
        { current := sql, iter := 0, status := VStatus.success, history := [] }
      with h1 | h1 | h1
    · rw [← hL] at h1
      exfalso
      apply hge
      rw [h1]
      show 0 + maxIterations ≥ maxIterations
      omega
    · rw [← hL] at h1
      rcases h with h | h <;> (rw [h1] at h; cases h)
    · rw [← hL] at h1
      exact h1

/-- C1 fails as stated: with the extracted price range `(0, 500000)` (both
bounds finite) the validator never requires a BETWEEN because the lower bound
is not positive, so a SUCCESS run may return a final SQL without any BETWEEN
near `asking_price`. -/
theorem c1_counterexample :
    (processQuery dbOk15 [] md5id 3 utterC1 sqlC1).constraints.price_range =
      some (0, some 500000) ∧
    (processQuery dbOk15 [] md5id 3 utterC1 sqlC1).validation_status =
      VStatus.success ∧
    (processQuery dbOk15 [] md5id 3 utterC1 sqlC1).final_query = sqlC1 ∧
    strContains (strLower (processQuery dbOk15 [] md5id 3 utterC1 sqlC1).final_query)
      "between" = false ∧
    strContains (strUpper (processQuery dbOk15 [] md5id 3 utterC1 sqlC1).final_query)
      "BETWEEN" = false := by decide

/-- C1 amended: whenever the envelope status is SUCCESS or CORRECTED (the loop
stopped on a validated result) and the extracted price range has a positive
lower bound and a finite upper bound, the lower-cased final SQL contains the
substrings `between` and `asking_price` (anywhere, not necessarily in one
clause). -/
theorem c1_price_between_final_sql (ex : String → ExecOut)
    (similar : List FeedbackRecord) (md5hex : String → String)
    (maxIterations : Nat) (u sql : String)
    (h : (processQuery ex similar md5hex maxIterations u sql).validation_status =
        VStatus.success ∨
      (processQuery ex similar md5hex maxIterations u sql).validation_status =
        VStatus.corrected)
    (mn mx : Nat)
    (hpr : (processQuery ex similar md5hex maxIterations u sql).constraints.price_range =
      some (mn, some mx))
    (hmn : 0 < mn) :
    strContains
      (strLower (processQuery ex similar md5hex maxIterations u sql).final_query)
      "between" = true ∧
    strContains
      (strLower (processQuery ex similar md5hex maxIterations u sql).final_query)
      "asking_price" = true := by
  have hv := processQuery_final_valid ex similar md5hex maxIterations u sql h
  exact valid_price_shape _ (extractConstraints u) _ hv mn mx hpr hmn

/-- Witness for the amended C1 on a SUCCESS run with range
`(200000, 800000)`. -/
theorem c1_witness :
    strContains
      (strLower (processQuery dbOk10 [] md5id 3 utterC1w sqlC1w).final_query)
      "between" = true ∧
    strContains
      (strLower (processQuery dbOk10 [] md5id 3 utterC1w sqlC1w).final_query)
      "asking_price" = true :=
  c1_price_between_final_sql dbOk10 [] md5id 3 utterC1w sqlC1w (Or.inl (by decide))
    200000 800000 (by decide) (by decide)

/-- C2 fails as stated: the iteration counter is incremented at the top of
the loop body, so a request that validates immediately returns SUCCESS with
`iteration_count = 1`, not `0`. -/
theorem c2_counterexample :
    (processQuery dbOk15 [] md5id 3 "" "select 1").validation_status =
      VStatus.success ∧
    (processQuery dbOk15 [] md5id 3 "" "select 1").iteration_count ≠ 0 := by decide

/-- C2 amended: a SUCCESS envelope always has `iteration_count = 1` (the
single execute-validate round that succeeded) and an empty correction
history. -/
theorem c2_success_iteration_count (ex : String → ExecOut)
    (similar : List FeedbackRecord) (md5hex : String → String)
    (maxIterations : Nat) (u sql : String)
    (h : (processQuery ex similar md5hex maxIterations u sql).validation_status =
      VStatus.success) :
    (processQuery ex similar md5hex maxIterations u sql).iteration_count = 1 ∧
    (processQuery ex similar md5hex maxIterations u sql).correction_history = [] := by
  simp only [processQuery] at h ⊢
  set L := loopGo ex similar (extractConstraints u) maxIterations
    { current := sql, iter := 0, status := VStatus.success, history := [] } with hL
  by_cases hge : L.iter ≥ maxIterations
  · rw [if_pos hge] at h
    cases h
  · rw [if_neg hge] at h
    rcases loopGo_success_shape ex similar (extractConstraints u) maxIterations
        { current := sql, iter := 0, status := VStatus.success, history := [] } (by
          rw [← hL]; exact h)
      with ⟨heq, hfz⟩ | ⟨hit, hh⟩
    · exfalso
      apply hge
      rw [← hL] at heq
      rw [heq]
      show (0 : Nat) ≥ maxIterations
      omega
    · rw [← hL] at hit hh
      constructor
      · rw [hit]
      · rw [hh]

/-- Witness for the amended C2 on an immediately valid request. -/
theorem c2_witness :
    (processQuery dbOk15 [] md5id 3 "" "select 1").iteration_count = 1 ∧
    (processQuery dbOk15 [] md5id 3 "" "select 1").correction_history = [] :=
  c2_success_iteration_count dbOk15 [] md5id 3 "" "select 1" (by decide)

/-- C3 fails as stated: with `max_iterations = 0` the loop body never runs
and the post-loop guard `iteration_count >= max_iterations` unconditionally
rewrites the status, so a request whose candidate result is valid still
returns MAX_ITERATIONS, never SUCCESS (though indeed no correction is
performed). -/
theorem c3_counterexample :
    (validateResults (execQuery dbOk15 "select 1") (extractConstraints "")
      "select 1").1 = true ∧
    (processQuery dbOk15 [] md5id 0 "" "select 1").validation_status =
      VStatus.max_iterations ∧
    (processQuery dbOk15 [] md5id 0 "" "select 1").validation_status ≠
      VStatus.success ∧
    (processQuery dbOk15 [] md5id 0 "" "select 1").iteration_count = 0 ∧
    (processQuery dbOk15 [] md5id 0 "" "select 1").correction_history = [] := by
  decide

/-- C3 amended: a round whose validation succeeds stops the loop immediately
with the status it held on entry (SUCCESS if no correction was applied yet,
CORRECTED otherwise), only bumping the iteration counter; the final reported
status is that held status unless the counter reached `max_iterations`, in
which case it is overwritten to MAX_ITERATIONS — in particular, under the
degenerate `max_iterations = 0` the envelope always carries MAX_ITERATIONS
with no execution, validation, or correction performed. -/
theorem c3_valid_break_status (ex : String → ExecOut)
    (similar : List FeedbackRecord) (cons : QueryConstraints)
    (md5hex : String → String) (u sql : String) :
    (∀ (fuel : Nat) (st : LoopState),
      (validateResults (execQuery ex st.current) cons st.current).1 = true →
      loopGo ex similar cons (fuel + 1) st = { st with iter := st.iter + 1 }) ∧
    ((processQuery ex similar md5hex 0 u sql).validation_status =
        VStatus.max_iterations ∧
      (processQuery ex similar md5hex 0 u sql).iteration_count = 0 ∧
      (processQuery ex similar md5hex 0 u sql).correction_history = []) := by
  constructor
  · intro fuel st hv
    rw [loopGo_succ_eq, if_pos hv]
  · exact ⟨rfl, rfl, rfl⟩

/-- Witness for the amended C3: a valid first round under the default bound
stops the loop at once, and a degenerate `max_iterations = 0` run reports
MAX_ITERATIONS untouched. -/
theorem c3_witness :
    loopGo dbOk15 [] (extractConstraints "") 3 stC3 = { stC3 with iter := 1 } ∧
    (processQuery dbOk15 [] md5id 0 "" "select 1").validation_status =
      VStatus.max_iterations :=
  ⟨(c3_valid_break_status dbOk15 [] (extractConstraints "") md5id "" "select 1").1
      2 stC3 (by decide),
   (c3_valid_break_status dbOk15 [] (extractConstraints "") md5id "" "select 1").2.1⟩

/-- C4 fails as stated: an extracted county may be mentioned by the final SQL
through an arbitrary column (here `name ILIKE`), which the validator accepts
on a SUCCESS run even though the county is not applied through the
`address->>county` expression. -/
theorem c4_counterexample :
    (processQuery dbOk10 [] md5id 3 utterC4 sqlC4).constraints.counties =
      ["walton"] ∧
    (processQuery dbOk10 [] md5id 3 utterC4 sqlC4).validation_status =
      VStatus.success ∧
    strContains (strLower (processQuery dbOk10 [] md5id 3 utterC4 sqlC4).final_query)
      "walton" = true ∧
    strContains (strLower (processQuery dbOk10 [] md5id 3 utterC4 sqlC4).final_query)
      addrCountyExpr = false := by decide

/-- C4 amended: whenever the envelope status is SUCCESS or CORRECTED, every
extracted county in the final SQL satisfies the validator's actual check: it
is not mentioned at all, or the query contains the `address->>county` (or
`address::text`) expression somewhere, or the county is at least not filtered
through `property_type ILIKE`. -/
theorem c4_county_filter_final_sql (ex : String → ExecOut)
    (similar : List FeedbackRecord) (md5hex : String → String)
    (maxIterations : Nat) (u sql : String)
    (h : (processQuery ex similar md5hex maxIterations u sql).validation_status =
        VStatus.success ∨
      (processQuery ex similar md5hex maxIterations u sql).validation_status =
        VStatus.corrected)
    (c : String)
    (hc : c ∈ (processQuery ex similar md5hex maxIterations u sql).constraints.counties) :
    strContains
      (strLower (processQuery ex similar md5hex maxIterations u sql).final_query)
      c = false ∨
    strContains
      (strLower (processQuery ex similar md5hex maxIterations u sql).final_query)
      addrCountyExpr = true ∨
    strContains
      (strLower (processQuery ex similar md5hex maxIterations u sql).final_query)
      addrTextExpr = true ∨
    strContains
      (strLower (processQuery ex similar md5hex maxIterations u sql).final_query)
      ("property_type ilike " ++ quoted ("%" ++ c ++ "%")) = false := by
  have hv := processQuery_final_valid ex similar md5hex maxIterations u sql h
  exact valid_county_shape _ (extractConstraints u) _ hv c hc

/-- Witness for the amended C4 on a SUCCESS run whose SQL carries the JSON
address expression. -/
theorem c4_witness :
    strContains (strLower (processQuery dbOk10 [] md5id 3 utterC4w sqlC4w).final_query)
      "walton" = false ∨
    strContains (strLower (processQuery dbOk10 [] md5id 3 utterC4w sqlC4w).final_query)
      addrCountyExpr = true ∨
    strContains (strLower (processQuery dbOk10 [] md5id 3 utterC4w sqlC4w).final_query)
      addrTextExpr = true ∨
    strContains (strLower (processQuery dbOk10 [] md5id 3 utterC4w sqlC4w).final_query)
      ("property_type ilike " ++ quoted ("%" ++ "walton" ++ "%")) = false :=
  c4_county_filter_final_sql dbOk10 [] md5id 3 utterC4w sqlC4w (Or.inl (by decide))
    "walton" (by decide)
